import Mathlib

/-!
Verification development for the config-gen schema-to-accessor generator.

The dynamic UCL tree is modelled by the inductive type `UVal`; schema doubles
are modelled as exact rationals (IEEE rounding is abstracted away).  The code
of `config-gen.cc` and `config-generic.h` is embedded shallowly: each Lean
definition mirrors one source function, keeping the source's names where
possible.  Machine-integer conversions that matter (the implicit signed to
unsigned conversion in `try_type`) are made explicit with `% 2^64`.
-/

namespace ConfigGen

/-- Model of a parsed UCL dynamic-tree value (`ucl_object_t`).  Objects keep
their properties in document order; `num` holds UCL_FLOAT values as exact
rationals and `int` holds UCL_INT values. -/
inductive UVal where
  | null
  | bool (b : Bool)
  | int (n : Int)
  | num (q : ℚ)
  | str (s : String)
  | arr (elems : List UVal)
  | obj (props : List (String × UVal))

/-- Model of `ucl_object_lookup` as used by `UCLPtr::operator[]`: key lookup
succeeds only on objects, returning the first property with the given key;
a null handle or a non-object yields a null result. -/
def lookupOpt : Option UVal → String → Option UVal
  | some (.obj kvs), k => (kvs.find? (fun p => p.1 == k)).map (fun p => p.2)
  | _, _ => none

/-- Model of `ucl_object_tostring`: a string value converts to itself, any
other value yields a null C string, which `StringViewAdaptor` turns into the
empty view. -/
def uclToString : UVal → String
  | .str s => s
  | _ => ""

/-- Model of `StringViewAdaptor` applied to a possibly-null handle: a null
object also yields the empty view. -/
def stringViewOf : Option UVal → String
  | none => ""
  | some v => uclToString v

/-- Model of `ucl_object_todouble`: floats convert exactly, integers are
widened, anything else yields zero. -/
def uclToDouble : UVal → ℚ
  | .num q => q
  | .int n => (n : ℚ)
  | _ => 0

/-- Model of `make_optional` from `config-generic.h`: if the handle is null
the optional is empty, otherwise it is populated with the adapted value. -/
def make_optional {α : Type} (adaptor : UVal → α) (o : Option UVal) : Option α :=
  match o with
  | none => none
  | some v => some (adaptor v)

/-- The discriminator string used by `NamedTypeAdaptor` and `TypeEnumAdaptor`:
the value of the node's "type" property read through `StringViewAdaptor`. -/
def typeDiscriminator (node : Option UVal) : String :=
  stringViewOf (lookupOpt node "type")

/-- Default value of the `configNamespace` global in `config-gen.cc`. -/
def configNamespace : String := "::config::detail::"

/-! ### Numeric resolution (`SchemaVisitor::handleNumber`) -/

def int64Min : Int := -(2 ^ 63)

def int64Max : Int := 2 ^ 63 - 1

def uint64Max : Int := 2 ^ 64 - 1

def int32Min : Int := -(2 ^ 31)

def int32Max : Int := 2 ^ 31 - 1

def uint32Max : Int := 2 ^ 32 - 1

def int16Min : Int := -(2 ^ 15)

def int16Max : Int := 2 ^ 15 - 1

def uint16Max : Int := 2 ^ 16 - 1

def int8Min : Int := -128

def int8Max : Int := 127

def uint8Max : Int := 255

/-- C++ float-to-integer conversion truncates toward zero; doubles are
modelled as exact rationals, so the truncation is exact. -/
def ratTruncTowardZero (q : ℚ) : Int :=
  if 0 ≤ q then ⌊q⌋ else ⌈q⌉

/-- C++ conversion of a signed 64-bit value to `uint64_t`: reduction modulo
2^64 (always yields a value in [0, 2^64)). -/
def toUnsigned64 (x : Int) : Int := x % 2 ^ 64

/-- The bound-interval computation at the start of the integral branch of
`handleNumber`: `min`/`max` start at the `int64_t` limits and are raised and
lowered by the four optional constraints; each supplied double goes through
`static_cast<int64_t>` (truncation toward zero), and an absent constraint
leaves the bound unchanged (`value_or` on the current bound). -/
def computeBounds (minimum exclusiveMinimum maximum exclusiveMaximum : Option ℚ) :
    Int × Int :=
  let mn0 : Int := int64Min
  let mx0 : Int := int64Max
  let mn1 := max mn0 (ratTruncTowardZero (minimum.getD (mn0 : ℚ)))
  let mn2 := max mn1 (ratTruncTowardZero (exclusiveMinimum.getD (mn1 : ℚ)))
  let mx1 := min mx0 (ratTruncTowardZero (maximum.getD (mx0 : ℚ)))
  let mx2 := min mx1 (ratTruncTowardZero (exclusiveMaximum.getD (mx1 : ℚ)))
  (mn2, mx2)

/-- Reading of one optional bound as the code does it: the truncated supplied
value, or the given current bound when absent. -/
def optTrunc (o : Option ℚ) (dflt : Int) : Int :=
  match o with
  | some q => ratTruncTowardZero q
  | none => dflt

/-- The `try_type` lambda in `handleNumber`: if the probe's condition holds,
overwrite the current selection with this type and adaptor. -/
def try_type (cond : Bool) (ty ad : String) (cur : String × String) :
    String × String :=
  if cond then (ty, ad) else cur

/-- The eight probe conditions of `handleNumber`, in source order, each paired
with the type and adaptor names it would select.  The conditions are the
source's comparisons `min >= numeric_limits<T>::min() && max <=
numeric_limits<T>::max()` under C++ conversion rules: for `uint64_t` both
operands convert to `uint64_t` (modelled by `toUnsigned64`), for the narrower
types the limits promote to `int64_t`. -/
def probeConds (mn mx : Int) : List (Bool × String × String) :=
  [(decide (int64Min ≤ mn ∧ mx ≤ int64Max), "int64_t", "Int64Adaptor"),
   (decide (0 ≤ toUnsigned64 mn ∧ toUnsigned64 mx ≤ uint64Max), "uint64_t", "UInt64Adaptor"),
   (decide (int32Min ≤ mn ∧ mx ≤ int32Max), "int32_t", "Int32Adaptor"),
   (decide (0 ≤ mn ∧ mx ≤ uint32Max), "uint32_t", "UInt32Adaptor"),
   (decide (int16Min ≤ mn ∧ mx ≤ int16Max), "int16_t", "Int16Adaptor"),
   (decide (0 ≤ mn ∧ mx ≤ uint16Max), "uint16_t", "UInt16Adaptor"),
   (decide (int8Min ≤ mn ∧ mx ≤ int8Max), "int8_t", "Int8Adaptor"),
   (decide (0 ≤ mn ∧ mx ≤ uint8Max), "uint8_t", "UInt8Adaptor")]

/-- The integrality test at the top of `handleNumber`: the `isInteger` flag of
the visitor overload, or, for a plain number, a `multipleOf` value that the
test `((double)(uint64_t)*multipleOf) == *multipleOf` accepts, modelled as
truncation toward zero being exact. -/
def integralCond (isIntegerIn : Bool) (multipleOf : Option ℚ) : Bool :=
  if !isIntegerIn then
    match multipleOf with
    | some m => decide ((ratTruncTowardZero m : ℚ) = m)
    | none => isIntegerIn
  else isIntegerIn

/-- Embedding of `SchemaVisitor::handleNumber`.  The first argument is the
`isInteger` flag passed by the `Integer`/`Number` visitor overloads; the five
optional rationals are the schema's `multipleOf`, `minimum`,
`exclusiveMinimum`, `maximum` and `exclusiveMaximum` fields.  Returns the pair
(return_type, adaptor) left in the visitor; both are empty only if no probe
fired. -/
def handleNumber (isIntegerIn : Bool)
    (multipleOf minimum exclusiveMinimum maximum exclusiveMaximum : Option ℚ) :
    String × String :=
  let isInteger := integralCond isIntegerIn multipleOf
  if !isInteger then ("double", "DoubleAdaptor")
  else
    let b := computeBounds minimum exclusiveMinimum maximum exclusiveMaximum
    (probeConds b.1 b.2).foldl (fun cur c => try_type c.1 c.2.1 c.2.2 cur) ("", "")

/-- Statement of the spec's selection rule in the spec's own words: the
native ranges of the eight candidate types in probe order, and the LAST
candidate whose native range fully contains the bound interval. -/
def nativeRanges : List (Int × Int × String) :=
  [(int64Min, int64Max, "int64_t"),
   (0, uint64Max, "uint64_t"),
   (int32Min, int32Max, "int32_t"),
   (0, uint32Max, "uint32_t"),
   (int16Min, int16Max, "int16_t"),
   (0, uint16Max, "uint16_t"),
   (int8Min, int8Max, "int8_t"),
   (0, uint8Max, "uint8_t")]

/-- Follows the spec's words: select the last probed type whose native range
fully contains the interval [mn, mx]. -/
def specNarrowestType (mn mx : Int) : Option String :=
  ((nativeRanges.filter (fun c => decide (c.1 ≤ mn ∧ mx ≤ c.2.1))).getLast?).map
    (fun c => c.2.2)

/-! ### Lazy ranges (`config::detail::Range` and its iterator) -/

/-- Model of `ucl_object_type(x) == UCL_ARRAY` on a possibly-null handle. -/
def isUclArray : Option UVal → Bool
  | some (.arr _) => true
  | _ => false

/-- Modelled from the spec: the external dynamic-tree iteration primitive
(`ucl_object_iterate_new`/`ucl_object_iterate_safe` with `UCL_ITERATE_BOTH`,
the only mode the repository uses).  Explicit arrays yield their elements in
document order, objects yield their property values in document order, and
any scalar is an implicit one-element sequence yielding itself (spec section
6: "iterate(node, mode)"; spec section 4.2: a non-sequence value is treated
as a single-element sequence). -/
def uclIterateBoth : UVal → List UVal
  | .arr xs => xs
  | .obj kvs => kvs.map (fun p => p.2)
  | v => [v]

/-- Elements produced by iterating a possibly-null handle; a null handle
yields nothing. -/
def uclIterList : Option UVal → List UVal
  | none => []
  | some v => uclIterateBoth v

/-- State of `Range::Iter`: `iter` models the libucl iterator handle (`none`
is a null handle, `some l` a live iterator with `l` still to be delivered)
and `obj` the current object (`none` models a null `UCLPtr`, the end
condition). -/
structure RangeIter where
  iter : Option (List UVal)
  obj : Option UVal

/-- The pre-increment operator of `Range::Iter`: with a null iterator handle
the current object becomes null, otherwise the next object is fetched from
the iterator (null once exhausted). -/
def iterStep (it : RangeIter) : RangeIter :=
  match it.iter with
  | none => { it with obj := none }
  | some [] => { iter := some [], obj := none }
  | some (x :: xs) => { iter := some xs, obj := some x }

/-- The `Range::Iter` constructor: when `IterateProperties` is false and the
value is not an actual array, the value itself becomes the single current
object and no iterator is created; otherwise a libucl iterator is created and
the iterator is pre-incremented once. -/
def iterNew (iterateProperties : Bool) (arr : Option UVal) : RangeIter :=
  if iterateProperties = false ∧ isUclArray arr = false then
    { iter := none, obj := arr }
  else
    iterStep { iter := some (uclIterList arr), obj := none }

/-- Draining an iterator: yield the current object and advance, until the
current object is null (the comparison against the end iterator).  The fuel
argument only bounds the number of steps; any fuel at least the length of the
underlying sequence plus one drains the iterator completely. -/
def iterDrain : Nat → RangeIter → List UVal
  | 0, _ => []
  | n + 1, it =>
    match it.obj with
    | none => []
    | some v => v :: iterDrain n (iterStep it)

/-- The element sequence of one full pass over a `Range` constructed on `arr`
(every `Range` in the repository is constructed with the default
`UCL_ITERATE_BOTH`): `begin()` builds a fresh iterator and the range-for loop
drains it. -/
def rangeToList (iterateProperties : Bool) (arr : Option UVal) (fuel : Nat) :
    List UVal :=
  iterDrain fuel (iterNew iterateProperties arr)

/-- Closed form of the element sequence of a `Range`; related to the iterator
state machine by `rangeToList_eq_rangeElems`. -/
def rangeElems (iterateProperties : Bool) (arr : Option UVal) : List UVal :=
  if iterateProperties = false ∧ isUclArray arr = false then
    match arr with
    | none => []
    | some v => [v]
  else uclIterList arr

/-! ### Discriminator dispatch (`NamedTypeAdaptor`, `EnumValueMap`) -/

/-- The six schema kinds of `SchemaBase::Type`, in declaration order. -/
inductive SchemaKind where
  | object | string | array | number | integer | bool
deriving DecidableEq

/-- The string-to-variant table of `SchemaBase::TypeAdaptor`
(a `NamedTypeAdaptor` instantiation), in source order. -/
def typeTable : List (String × SchemaKind) :=
  [("object", .object), ("array", .array), ("string", .string),
   ("integer", .integer), ("boolean", .bool), ("number", .number)]

/-- Model of `NamedTypeAdaptor::visit_impl`: scan the table in order and
select the variant whose key matches; if no key matches, no variant is
selected and no handler is invoked. -/
def visitSelect (key : String) : Option SchemaKind :=
  (typeTable.find? (fun p => p.1 == key)).map (fun p => p.2)

/-- The values of the `SchemaBase::Type` enumerators, keyed by the strings of
`SchemaBase::TypeEnumAdaptor`, in source order (TypeObject=0, TypeString=1,
TypeArray=2, TypeNumber=3, TypeInteger=4, TypeBool=5). -/
def typeEnumTable : List (String × Int) :=
  [("object", 0), ("array", 2), ("string", 1),
   ("integer", 4), ("boolean", 5), ("number", 3)]

/-- Model of `EnumValueMap::get` (via `lookup`): a linear scan returning the
mapped value, or `static_cast<Value>(-1)` when no key matches. -/
def enumValueMapGet (key : String) : Int :=
  match typeEnumTable.find? (fun p => p.1 == key) with
  | some p => p.2
  | none => -1

/-! ### Class emission (`SchemaVisitor` and `emit_class`) -/

/-- The output-relevant fields of `SchemaVisitor` after a visit: all string
views start empty, the adaptor namespace starts as the `configNamespace`
global, and `types` is the text the visit appended to the shared nested-types
stream. -/
structure VisitResult where
  return_type : String := ""
  adaptor : String := ""
  adaptorNamespace : String := configNamespace
  lifetimeAttribute : String := ""
  types : String := ""
deriving DecidableEq

/-- Identifier sanitization in `emit_class`: if the property name contains a
dash, every dash is replaced by an underscore (std::replace); otherwise the
name is used as is. -/
def sanitizeName (s : String) : String :=
  if s.data.contains (Char.ofNat 45) then
    String.mk (s.data.map (fun c => if c = Char.ofNat 45 then Char.ofNat 95 else c))
  else s

/-- The accessor text emitted for one property: a required property returns
the resolved type directly, an optional one wraps it in `std::optional` and
goes through `make_optional`; both look up the original document key. -/
def emitMethod (v : VisitResult) (isRequired : Bool)
    (prop_name method_name : String) : String :=
  if isRequired then
    v.return_type ++ " " ++ method_name ++ "() const " ++ v.lifetimeAttribute ++
      " \x7b" ++ "return " ++ v.adaptorNamespace ++ v.adaptor ++
      "(obj[\"" ++ prop_name ++ "\"]);\x7d"
  else
    "std::optional<" ++ v.return_type ++ "> " ++ method_name ++ "() const " ++
      v.lifetimeAttribute ++ " \x7b" ++ "return " ++ configNamespace ++
      "::make_optional<" ++ v.adaptorNamespace ++ v.adaptor ++ ", " ++
      v.return_type ++ ">(obj[\"" ++ prop_name ++ "\"]);\x7d"

/-- The required-name set of `emit_class`: if the "required" key is present,
iterate it with a `Range<std::string_view, StringViewAdaptor>` (non-property
iteration) and collect the strings; absence means no required properties. -/
def requiredNames (o : Option UVal) : List String :=
  match lookupOpt o "required" with
  | none => []
  | some r => (rangeElems false (some r)).map uclToString

/-- The property sequence of `Object::properties()`: a key-value `Range` over
the "properties" object (property iteration yields each value with its key).
Non-object "properties" values are outside the schemas the generator
consumes. -/
def propsIter : Option UVal → List (String × UVal)
  | some (.obj kvs) => kvs
  | _ => []

/-- Emission for a single property inside the `emit_class` loop: compute the
required flag and the sanitized method name, render the optional doc comment,
visit the property's schema, and render the accessor followed by a blank
line.  Returns the texts appended to the nested-types stream and to the
methods stream. -/
def emitPropOne (visitFn : String → Option UVal → VisitResult)
    (required_properties : List String) (prop : String × UVal) :
    String × String :=
  let prop_name := prop.1
  let isRequired := required_properties.contains prop_name
  let method_name := sanitizeName prop_name
  let descStr :=
    match make_optional uclToString (lookupOpt (some prop.2) "description") with
    | some d => "\n/** " ++ d ++ " */\n"
    | none => ""
  let v := visitFn method_name (some prop.2)
  (v.types, descStr ++ emitMethod v isRequired prop_name method_name ++ "\n\n")

/-- The property loop of `emit_class`: each property appends to the types
stream and to the methods stream in document order. -/
def emitProps (visitFn : String → Option UVal → VisitResult)
    (required_properties : List String) : List (String × UVal) → String × String
  | [] => ("", "")
  | p :: rest =>
    let tm := emitPropOne visitFn required_properties p
    let tm2 := emitProps visitFn required_properties rest
    (tm.1 ++ tm2.1, tm.2 ++ tm2.2)

/-- Body of `emit_class` for an object schema `o` and target name `name`,
parameterized by the visitor so that the mutual recursion with
`SchemaVisitor` can be closed by `schemaVisit`: class head and constructor,
then the collected nested type definitions, then the accessor methods, then
the closing brace. -/
def emit_class_core (visitFn : String → Option UVal → VisitResult)
    (o : Option UVal) (name : String) : String :=
  let required_properties := requiredNames o
  let tm := emitProps visitFn required_properties (propsIter (lookupOpt o "properties"))
  "class " ++ name ++ "\x7b" ++ configNamespace ++ "UCLPtr obj; public:\n" ++
    name ++ "(const ucl_object_t *o) : obj(o) \x7b\x7d\n" ++
    tm.1 ++ tm.2 ++ "\x7d;\n"

/-- The number-field accessors of `Schema::Number`: each is
`make_optional<DoubleAdaptor>(obj[key])`. -/
def numField (node : Option UVal) (key : String) : Option ℚ :=
  make_optional uclToDouble (lookupOpt node key)

/-- The visitor outcome of the `Integer` and `Number` overloads of
`SchemaVisitor`: `handleNumber` on the five optional constraint fields. -/
def numberResult (node : Option UVal) (isInteger : Bool) : VisitResult :=
  let r := handleNumber isInteger (numField node "multipleOf")
    (numField node "minimum") (numField node "exclusiveMinimum")
    (numField node "maximum") (numField node "exclusiveMaximum")
  { return_type := r.1, adaptor := r.2 }

/-- Embedding of `SchemaVisitor` dispatched through
`SchemaBase::TypeAdaptor::visit`: the node's "type" string is compared with
the table keys in source order and the matching overload runs; when nothing
matches, the visitor is never invoked and all its fields keep their initial
values.  The fuel bounds the nesting depth of the schema; every schema tree
is handled exactly by any fuel exceeding its depth, and `name` is the
(already sanitized) accessor name the caller passes. -/
def schemaVisit : Nat → String → Option UVal → VisitResult
  | 0 => fun _ _ => {}
  | fuel + 1 => fun name node =>
    let key := typeDiscriminator node
    if key = "object" then
      let className := name ++ "Class"
      { return_type := className, adaptor := className, adaptorNamespace := "",
        types := emit_class_core (schemaVisit fuel) node className }
    else if key = "array" then
      let itemName := name ++ "Item"
      let item := schemaVisit fuel itemName (lookupOpt node "items")
      let className := configNamespace ++ "::Range<" ++ item.return_type ++
        ", " ++ item.adaptor ++ ", true>"
      { return_type := className, adaptor := className, adaptorNamespace := "",
        types := item.types }
    else if key = "string" then
      { return_type := "std::string_view", adaptor := "StringViewAdaptor",
        lifetimeAttribute := "CONFIG_LIFETIME_BOUND" }
    else if key = "integer" then numberResult node true
    else if key = "boolean" then
      { return_type := "bool", adaptor := "BoolAdaptor" }
    else if key = "number" then numberResult node false
    else {}

/-- The `emit_class` function of `config-gen.cc`, with its recursion through
`SchemaVisitor` closed at nesting depth `fuel`. -/
def emit_class (fuel : Nat) (o : Option UVal) (name : String) : String :=
  emit_class_core (schemaVisit fuel) o name

/-! ### The embedded-schema factory (`make_config`, emitted by `main`) -/

/-- The generated primary config type: it wraps a handle to the validated
document (`Config(obj)`). -/
structure Config where
  obj : UVal

/-- Modelled from the spec: the structured error of the external validator
(`ucl_schema_error`), a message plus the offending node (spec section 6,
"validate(schemaNode, dataNode) -> ok | structured-error"). -/
structure SchemaError where
  msg : String
  offending : UVal

/-- Process-wide state of the emitted factory: the function-local static
validator handle (absent before the first call) and, to express the
once-only contract, the number of times the embedded schema text has been
parsed. -/
structure FactoryState where
  cachedSchema : Option UVal
  parseCount : Nat

/-- Embedding of the factory function emitted when `--embed-schema` is given.
Modelled from the spec for its two external collaborators: `embedded` is the
result of re-parsing the embedded schema text (assumed to re-parse
successfully, since a failure is a process-terminating invariant violation),
and `validate` is the external `ucl_object_validate`.  The C++ function-local
static is the explicit state: on first call the embedded text is parsed and
cached, afterwards the cached validator is reused; every call validates the
caller's document and returns either a validation error or a constructed
`Config`. -/
def make_config (embedded : UVal) (validate : UVal → UVal → Option SchemaError)
    (st : FactoryState) (doc : UVal) : FactoryState × (Config ⊕ SchemaError) :=
  let s :=
    match st.cachedSchema with
    | some s => (s, st)
    | none => (embedded, { cachedSchema := some embedded, parseCount := st.parseCount + 1 })
  match validate s.1 doc with
  | some err => (s.2, Sum.inr err)
  | none => (s.2, Sum.inl { obj := doc })

/-- A sequence of factory calls in one process, threading the static state. -/
def runFactory (embedded : UVal) (validate : UVal → UVal → Option SchemaError) :
    FactoryState → List UVal → FactoryState × List (Config ⊕ SchemaError)
  | st, [] => (st, [])
  | st, doc :: docs =>
    let r := make_config embedded validate st doc
    let rest := runFactory embedded validate r.1 docs
    (rest.1, r.2 :: rest.2)

/-! ### Shared lemmas -/

set_option maxRecDepth 16000

theorem ratTruncTowardZero_intCast (n : ℤ) : ratTruncTowardZero (n : ℚ) = n := by
  unfold ratTruncTowardZero
  split <;> simp

theorem ratTruncTowardZero_eq_self_iff (q : ℚ) :
    ((ratTruncTowardZero q : ℤ) : ℚ) = q ↔ ∃ n : ℤ, q = (n : ℚ) := by
  constructor
  · intro h
    exact ⟨ratTruncTowardZero q, h.symm⟩
  · rintro ⟨n, rfl⟩
    rw [ratTruncTowardZero_intCast]

theorem foldl_try_type (l : List (Bool × String × String)) :
    ∀ init, l.foldl (fun cur c => try_type c.1 c.2.1 c.2.2 cur) init =
      (((l.filter (fun c => c.1)).getLast?).map (fun c => c.2)).getD init := by
  induction l with
  | nil => intro init; rfl
  | cons c t ih =>
    intro init
    rw [List.foldl_cons, ih, List.filter_cons]
    by_cases hc : c.1 = true
    · simp only [hc, if_true, try_type]
      cases h : t.filter (fun c => c.1) with
      | nil => simp [h]
      | cons x xs =>
        have hy := List.getLast?_eq_getLast_of_ne_nil (l := x :: xs) (by simp)
        simp [h, hy, List.getLast?_cons_cons]
    · simp [hc, try_type]

theorem computeBounds_range (mn emn mx emx : Option ℚ) :
    int64Min ≤ (computeBounds mn emn mx emx).1 ∧
      (computeBounds mn emn mx emx).2 ≤ int64Max := by
  unfold computeBounds
  constructor
  · exact le_trans (le_max_left _ _) (le_max_left _ _)
  · exact le_trans (min_le_left _ _) (min_le_left _ _)

theorem handleNumber_integral (k : Bool) (mo mn emn mx emx : Option ℚ)
    (h : integralCond k mo = true) :
    handleNumber k mo mn emn mx emx =
      ((((probeConds (computeBounds mn emn mx emx).1
            (computeBounds mn emn mx emx).2).filter
          (fun c => c.1)).getLast?).map (fun c => c.2)).getD ("", "") := by
  rw [handleNumber]
  simp only [h, Bool.not_true, if_false, Bool.false_eq_true]
  exact foldl_try_type _ _

theorem getD_getLast?_map_cons_mem {α β : Type} (f : α → β) (a : α) (t l : List α)
    (hsub : ∀ x ∈ t, x ∈ l) (ha : a ∈ l) (init : β) :
    ((((a :: t).getLast?).map f).getD init) ∈ l.map f := by
  have hy := List.getLast?_eq_getLast_of_ne_nil (l := a :: t) (by simp)
  rw [hy]
  simp only [Option.map_some', Option.getD_some]
  have hmem := List.getLast_mem (l := a :: t) (by simp)
  rcases List.mem_cons.mp hmem with h1 | h2
  · rw [h1]
    exact List.mem_map_of_mem _ ha
  · exact List.mem_map_of_mem _ (hsub _ h2)

theorem handleNumber_integral_mem (k : Bool) (mo mn emn mx emx : Option ℚ)
    (h : integralCond k mo = true) :
    handleNumber k mo mn emn mx emx ∈
      (probeConds (computeBounds mn emn mx emx).1
        (computeBounds mn emn mx emx).2).map (fun c => c.2) := by
  have hr := computeBounds_range mn emn mx emx
  rw [handleNumber_integral k mo mn emn mx emx h]
  generalize hB : computeBounds mn emn mx emx = B at hr ⊢
  obtain ⟨lo, hi⟩ := B
  simp only at hr
  have h0 : decide (int64Min ≤ lo ∧ hi ≤ int64Max) = true := decide_eq_true ⟨hr.1, hr.2⟩
  have hfil : (probeConds lo hi).filter (fun c => c.1) =
      ((decide (int64Min ≤ lo ∧ hi ≤ int64Max), "int64_t", "Int64Adaptor") : Bool × String × String) ::
        ((probeConds lo hi).tail.filter (fun c => c.1)) := by
    rw [probeConds]
    exact List.filter_cons_of_pos h0
  rw [hfil]
  refine getD_getLast?_map_cons_mem _ _ _ _ ?_ ?_ _
  · intro x hx
    have hx2 := List.mem_of_mem_filter hx
    rw [probeConds] at hx2 ⊢
    simp only [List.tail_cons] at hx2
    exact List.mem_cons_of_mem _ hx2
  · rw [probeConds]
    exact List.mem_cons_self _ _

theorem handleNumber_integral_ne_double (k : Bool) (mo mn emn mx emx : Option ℚ)
    (h : integralCond k mo = true) :
    handleNumber k mo mn emn mx emx ≠ ("double", "DoubleAdaptor") := by
  have hm := handleNumber_integral_mem k mo mn emn mx emx h
  intro hEq
  rw [hEq] at hm
  rw [probeConds] at hm
  simp at hm

theorem integralCond_iff (k : Bool) (mo : Option ℚ) :
    integralCond k mo = true ↔
      (k = true ∨ ∃ m : ℚ, mo = some m ∧ ∃ n : ℤ, m = (n : ℚ)) := by
  cases k with
  | true => simp [integralCond]
  | false =>
    cases mo with
    | none => simp [integralCond]
    | some m =>
      simp only [integralCond, Bool.not_false, if_true, decide_eq_true_eq,
        Bool.false_eq_true, false_or]
      rw [ratTruncTowardZero_eq_self_iff]
      constructor
      · rintro ⟨n, hn⟩
        exact ⟨m, rfl, n, hn⟩
      · rintro ⟨m', hm', n, hn⟩
        exact ⟨n, (Option.some.injEq _ _ ▸ hm' : m = m') ▸ hn⟩

/-! ### Claim theorems -/

/-- C1: evaluating the numeric resolver.  The claimed results for bounds
[0,255] and [-100,100] hold, but an integral schema with no bounds resolves to
uint64_t, not int64_t: the uint64_t probe compares the int64_t bounds against
uint64_t limits, so C++ arithmetic conversions make it always succeed, while
the spec's rule (the last probed type whose native range contains the computed
interval, here the full int64 interval) selects int64_t. -/
theorem c1_unbounded_integer_selects_uint64 :
    handleNumber true none (some 0) none (some 255) none = ("uint8_t", "UInt8Adaptor")
    ∧ handleNumber true none (some (-100)) none (some 100) none = ("int8_t", "Int8Adaptor")
    ∧ computeBounds none none none none = (int64Min, int64Max)
    ∧ handleNumber true none none none none none = ("uint64_t", "UInt64Adaptor")
    ∧ specNarrowestType int64Min int64Max = some "int64_t"
    ∧ ("uint64_t", "UInt64Adaptor") ≠ (("int64_t", "Int64Adaptor") : String × String) := by
  exact ⟨rfl, rfl, rfl, rfl, rfl, by decide⟩

/-- C4: a Number/Integer schema resolves to double precision (return type
"double", DoubleAdaptor, with no bound probing) exactly when it is not
integral, that is, when neither its declared kind is Integer nor `multipleOf`
is present with a whole-number value; every integral schema resolves to one of
the fixed-width integer types instead. -/
theorem c4_double_iff_not_integral (k : Bool) (mo mn emn mx emx : Option ℚ) :
    handleNumber k mo mn emn mx emx = ("double", "DoubleAdaptor") ↔
      ¬(k = true ∨ ∃ m : ℚ, mo = some m ∧ ∃ n : ℤ, m = (n : ℚ)) := by
  constructor
  · intro h hint
    exact handleNumber_integral_ne_double k mo mn emn mx emx
      ((integralCond_iff k mo).mpr hint) h
  · intro hnint
    have hc : integralCond k mo = false := by
      cases hcc : integralCond k mo with
      | false => rfl
      | true => exact absurd ((integralCond_iff k mo).mp hcc) hnint
    rw [handleNumber]
    simp [hc]

/-- C5: the bound interval starts at the int64_t limits; the lower bound is
the maximum of INT64_MIN and the (truncated) supplied `minimum` and
`exclusiveMinimum`, both folded in as inclusive floors with no +1 adjustment,
and the upper bound is symmetrically the minimum of INT64_MAX and the
(truncated) supplied `maximum` and `exclusiveMaximum`, with no -1
adjustment. -/
theorem c5_bound_interval (mn emn mx emx : Option ℚ) :
    computeBounds mn emn mx emx =
      (max int64Min (max (optTrunc mn int64Min) (optTrunc emn int64Min)),
       min int64Max (min (optTrunc mx int64Max) (optTrunc emx int64Max))) := by
  rcases mn with _ | a <;> rcases emn with _ | b <;>
    rcases mx with _ | c <;> rcases emx with _ | d <;>
      simp only [computeBounds, optTrunc, Option.getD_some, Option.getD_none,
        ratTruncTowardZero_intCast, Prod.mk.injEq, max_self, min_self] <;>
    constructor <;>
      simp [max_assoc, max_comm, max_left_comm, max_self,
        min_assoc, min_comm, min_left_comm, min_self]

theorem find?_eq_none_of_ne {α : Type} (key : String) (l : List (String × α))
    (h : ∀ p ∈ l, p.1 ≠ key) : l.find? (fun p => p.1 == key) = none := by
  induction l with
  | nil => rfl
  | cons a t ih =>
    rw [List.find?_cons_of_neg, ih]
    · intro p hp
      exact h p (List.mem_cons_of_mem _ hp)
    · simp only [beq_iff_eq]
      exact h a (List.mem_cons_self _ _)

theorem visitSelect_eq_none_of_not_mem (key : String)
    (h : key ∉ ["object", "array", "string", "integer", "boolean", "number"]) :
    visitSelect key = none := by
  simp only [List.mem_cons, List.not_mem_nil, or_false, not_or] at h
  obtain ⟨ho, ha, hs, hi, hb, hn⟩ := h
  have hfind : typeTable.find? (fun p => p.1 == key) = none := by
    apply find?_eq_none_of_ne
    intro p hp
    rw [typeTable] at hp
    simp only [List.mem_cons, List.not_mem_nil, or_false] at hp
    rcases hp with h1 | h1 | h1 | h1 | h1 | h1 <;>
      rw [h1] <;> simp only [ne_eq] <;> intro hc <;>
        first
          | exact ho hc.symm
          | exact ha hc.symm
          | exact hs hc.symm
          | exact hi hc.symm
          | exact hb hc.symm
          | exact hn hc.symm
  rw [visitSelect, hfind]
  rfl

theorem enumValueMapGet_unmatched (key : String)
    (h : key ∉ ["object", "array", "string", "integer", "boolean", "number"]) :
    enumValueMapGet key = -1 := by
  simp only [List.mem_cons, List.not_mem_nil, or_false, not_or] at h
  obtain ⟨ho, ha, hs, hi, hb, hn⟩ := h
  have hfind : typeEnumTable.find? (fun p => p.1 == key) = none := by
    apply find?_eq_none_of_ne
    intro p hp
    rw [typeEnumTable] at hp
    simp only [List.mem_cons, List.not_mem_nil, or_false] at hp
    rcases hp with h1 | h1 | h1 | h1 | h1 | h1 <;>
      rw [h1] <;> simp only [ne_eq] <;> intro hc <;>
        first
          | exact ho hc.symm
          | exact ha hc.symm
          | exact hs hc.symm
          | exact hi hc.symm
          | exact hb hc.symm
          | exact hn hc.symm
  rw [enumValueMapGet, hfind]

/-- C9: the "type" discriminator dispatch goes through the explicit
string-to-tag tables with no default: for a node whose discriminator is
missing or unrecognized, the visit selects no variant (so no handler runs)
and the enum mapping returns -1, which is none of the six valid tag values. -/
theorem c9_unrecognized_discriminator_fails (node : Option UVal)
    (h : typeDiscriminator node ∉
      ["object", "array", "string", "integer", "boolean", "number"]) :
    visitSelect (typeDiscriminator node) = none
    ∧ enumValueMapGet (typeDiscriminator node) = -1
    ∧ enumValueMapGet (typeDiscriminator node) ∉ typeEnumTable.map (fun p => p.2) := by
  refine ⟨visitSelect_eq_none_of_not_mem _ h, enumValueMapGet_unmatched _ h, ?_⟩
  rw [enumValueMapGet_unmatched _ h, typeEnumTable]
  decide

theorem c9_witness :
    ((typeDiscriminator (some (UVal.obj [("title", UVal.str "x")])) ∉
        ["object", "array", "string", "integer", "boolean", "number"])
      ∧ (visitSelect (typeDiscriminator (some (UVal.obj [("title", UVal.str "x")]))) = none
        ∧ enumValueMapGet (typeDiscriminator (some (UVal.obj [("title", UVal.str "x")]))) = -1
        ∧ enumValueMapGet (typeDiscriminator (some (UVal.obj [("title", UVal.str "x")]))) ∉
            typeEnumTable.map (fun p => p.2)))
    ∧ ((typeDiscriminator (some (UVal.obj [("type", UVal.str "oneOf")])) ∉
        ["object", "array", "string", "integer", "boolean", "number"])
      ∧ (visitSelect (typeDiscriminator (some (UVal.obj [("type", UVal.str "oneOf")]))) = none
        ∧ enumValueMapGet (typeDiscriminator (some (UVal.obj [("type", UVal.str "oneOf")]))) = -1
        ∧ enumValueMapGet (typeDiscriminator (some (UVal.obj [("type", UVal.str "oneOf")]))) ∉
            typeEnumTable.map (fun p => p.2))) :=
  ⟨⟨by decide, c9_unrecognized_discriminator_fails _ (by decide)⟩,
   ⟨by decide, c9_unrecognized_discriminator_fails _ (by decide)⟩⟩

/-- C2: the declared result of a required property's accessor is the resolved
type directly, that of a non-required property is the resolved type wrapped in
std::optional, and at runtime the generated optional accessor yields an empty
optional exactly when the property's key is absent from the document and a
populated optional holding the adapted document value when it is present. -/
theorem c2_optional_wrapping {α : Type} (v : VisitResult) (pn mnm k : String)
    (doc : Option UVal) (f : UVal → α) :
    (∃ rest : String, emitMethod v true pn mnm =
        v.return_type ++ " " ++ mnm ++ "() const " ++ rest)
    ∧ (∃ rest : String, emitMethod v false pn mnm =
        "std::optional<" ++ v.return_type ++ "> " ++ mnm ++ "() const " ++ rest)
    ∧ (make_optional f (lookupOpt doc k) = none ↔ lookupOpt doc k = none)
    ∧ (∀ w, lookupOpt doc k = some w →
        make_optional f (lookupOpt doc k) = some (f w)) := by
  refine ⟨?_, ?_, ?_, ?_⟩
  · refine ⟨v.lifetimeAttribute ++ " \x7b" ++ "return " ++ v.adaptorNamespace ++
      v.adaptor ++ "(obj[\"" ++ pn ++ "\"]);\x7d", ?_⟩
    simp [emitMethod, String.append_assoc]
  · refine ⟨v.lifetimeAttribute ++ " \x7b" ++ "return " ++ configNamespace ++
      "::make_optional<" ++ v.adaptorNamespace ++ v.adaptor ++ ", " ++
      v.return_type ++ ">(obj[\"" ++ pn ++ "\"]);\x7d", ?_⟩
    simp [emitMethod, String.append_assoc]
  · cases h : lookupOpt doc k <;> simp [make_optional]
  · intro w hw
    rw [hw]
    rfl

theorem c2_witness :
    ((∃ rest : String, emitMethod {} true "p" "p" = "" ++ " " ++ "p" ++ "() const " ++ rest)
    ∧ (∃ rest : String, emitMethod {} false "p" "p" =
        "std::optional<" ++ "" ++ "> " ++ "p" ++ "() const " ++ rest)
    ∧ (make_optional uclToString (lookupOpt (some (UVal.obj [("a", UVal.str "x")])) "b") = none ↔
        lookupOpt (some (UVal.obj [("a", UVal.str "x")])) "b" = none)
    ∧ (∀ w, lookupOpt (some (UVal.obj [("a", UVal.str "x")])) "b" = some w →
        make_optional uclToString (lookupOpt (some (UVal.obj [("a", UVal.str "x")])) "b") =
          some (uclToString w)))
    ∧ lookupOpt (some (UVal.obj [("a", UVal.str "x")])) "b" = none
    ∧ lookupOpt (some (UVal.obj [("a", UVal.str "x")])) "a" = some (UVal.str "x")
    ∧ make_optional uclToString (lookupOpt (some (UVal.obj [("a", UVal.str "x")])) "a") =
        some (uclToString (UVal.str "x")) :=
  ⟨c2_optional_wrapping {} "p" "p" "b" (some (UVal.obj [("a", UVal.str "x")])) uclToString,
   rfl, rfl,
   (c2_optional_wrapping {} "p" "p" "a" (some (UVal.obj [("a", UVal.str "x")]))
     uclToString).2.2.2 (UVal.str "x") rfl⟩

theorem map_dash_eq_self_of_not_contains (l : List Char)
    (h : l.contains (Char.ofNat 45) = false) :
    l.map (fun c => if c = Char.ofNat 45 then Char.ofNat 95 else c) = l := by
  induction l with
  | nil => rfl
  | cons a t ih =>
    simp only [List.contains_cons, Bool.or_eq_false_iff, beq_eq_false_iff_ne, ne_eq] at h
    simp only [List.map_cons]
    rw [if_neg (fun hc => h.1 hc.symm), ih]
    simp only [List.contains_eq_any_beq] at h ⊢
    exact h.2

/-- C8: the accessor name is the property identifier with every dash replaced
by an underscore while the generated body still looks up the original key; in
particular a required string property named "max-items" yields the accessor
`max_items` whose body reads `obj["max-items"]`. -/
theorem c8_sanitized_name_original_key
    (visitFn : String → Option UVal → VisitResult) (req : List String)
    (k : String) (node : UVal) :
    (sanitizeName k =
      String.mk (k.data.map (fun c => if c = Char.ofNat 45 then Char.ofNat 95 else c)))
    ∧ ((emitPropOne visitFn req (k, node)).2 =
        (match make_optional uclToString (lookupOpt (some node) "description") with
          | some d => "\n/** " ++ d ++ " */\n"
          | none => "") ++
        emitMethod (visitFn (sanitizeName k) (some node)) (req.contains k) k
          (sanitizeName k) ++ "\n\n")
    ∧ ((emitPropOne (schemaVisit 1) ["max-items"]
          ("max-items", UVal.obj [("type", UVal.str "string")])).2 =
        "std::string_view max_items() const CONFIG_LIFETIME_BOUND \x7breturn ::config::detail::StringViewAdaptor(obj[\"max-items\"]);\x7d\n\n") := by
  refine ⟨?_, rfl, rfl⟩
  rw [sanitizeName]
  by_cases h : k.data.contains (Char.ofNat 45)
  · rw [if_pos h]
  · rw [if_neg h, map_dash_eq_self_of_not_contains k.data (by simpa using h)]

theorem c8_witness :
    sanitizeName "max-items" = "max_items"
    ∧ (emitPropOne (schemaVisit 1) ["max-items"]
        ("max-items", UVal.obj [("type", UVal.str "string")])).2 =
      "std::string_view max_items() const CONFIG_LIFETIME_BOUND \x7breturn ::config::detail::StringViewAdaptor(obj[\"max-items\"]);\x7d\n\n" :=
  ⟨rfl, (c8_sanitized_name_original_key (schemaVisit 1) ["max-items"] "max-items"
    (UVal.obj [("type", UVal.str "string")])).2.2⟩

/-- C10: a property whose "type" discriminator is missing or unrecognized
still gets an accessor: the visitor dispatch selects no variant, all visitor
fields keep their defaults (empty return type and adaptor), and the rendered
method is a nonempty accessor with an empty return type, prefixed to the
methods emitted for the remaining properties, so generation neither skips the
property nor fails. -/
theorem c10_unknown_type_emits_malformed_accessor (fuel : Nat) (nm k : String)
    (node : UVal) (req : List String) (rest : List (String × UVal))
    (h : typeDiscriminator (some node) ∉
      ["object", "array", "string", "integer", "boolean", "number"]) :
    schemaVisit (fuel + 1) nm (some node) = {}
    ∧ visitSelect (typeDiscriminator (some node)) = none
    ∧ (emitPropOne (schemaVisit (fuel + 1)) req (k, node)).2 =
        (match make_optional uclToString (lookupOpt (some node) "description") with
          | some d => "\n/** " ++ d ++ " */\n"
          | none => "") ++
        emitMethod {} (req.contains k) k (sanitizeName k) ++ "\n\n"
    ∧ (emitPropOne (schemaVisit (fuel + 1)) req (k, node)).2 ≠ ""
    ∧ emitMethod {} true k (sanitizeName k) =
        " " ++ sanitizeName k ++ "() const  \x7breturn " ++ configNamespace ++
          "(obj[\"" ++ k ++ "\"]);\x7d"
    ∧ emitMethod {} false k (sanitizeName k) =
        "std::optional<> " ++ sanitizeName k ++ "() const  \x7breturn " ++
          configNamespace ++ "::make_optional<" ++ configNamespace ++ ", >(obj[\"" ++
          k ++ "\"]);\x7d"
    ∧ (emitProps (schemaVisit (fuel + 1)) req ((k, node) :: rest)).2 =
        (emitPropOne (schemaVisit (fuel + 1)) req (k, node)).2 ++
        (emitProps (schemaVisit (fuel + 1)) req rest).2 := by
  have hsel := visitSelect_eq_none_of_not_mem _ h
  simp only [List.mem_cons, List.not_mem_nil, or_false, not_or] at h
  obtain ⟨ho, ha, hs, hi, hb, hn⟩ := h
  have hv2 : ∀ nm2, schemaVisit (fuel + 1) nm2 (some node) = {} := by
    intro nm2
    simp only [schemaVisit]
    rw [if_neg ho, if_neg ha, if_neg hs, if_neg hi, if_neg hb, if_neg hn]
  have hone : (emitPropOne (schemaVisit (fuel + 1)) req (k, node)).2 =
      (match make_optional uclToString (lookupOpt (some node) "description") with
        | some d => "\n/** " ++ d ++ " */\n"
        | none => "") ++
      emitMethod {} (req.contains k) k (sanitizeName k) ++ "\n\n" := by
    rw [emitPropOne]
    simp only [hv2]
  refine ⟨hv2 nm, hsel, hone, ?_, ?_, ?_, rfl⟩
  · rw [hone]
    intro hc
    have h2 := congrArg String.data hc
    simp only [String.data_append] at h2
    rcases List.append_eq_nil.mp h2 with ⟨-, h4⟩
    exact absurd h4 (by decide)
  · simp [emitMethod, String.append_assoc]
  · simp [emitMethod, String.append_assoc]

theorem c10_witness :
    ((typeDiscriminator (some (UVal.obj [("type", UVal.str "oneOf"), ("description", UVal.str "d")])) ∉
        ["object", "array", "string", "integer", "boolean", "number"])
    ∧ (schemaVisit 1 "x" (some (UVal.obj [("type", UVal.str "oneOf"), ("description", UVal.str "d")])) = {}
    ∧ visitSelect (typeDiscriminator (some (UVal.obj [("type", UVal.str "oneOf"), ("description", UVal.str "d")]))) = none
    ∧ (emitPropOne (schemaVisit 1) [] ("p", UVal.obj [("type", UVal.str "oneOf"), ("description", UVal.str "d")])).2 =
        (match make_optional uclToString (lookupOpt
            (some (UVal.obj [("type", UVal.str "oneOf"), ("description", UVal.str "d")]))
            "description") with
          | some d => "\n/** " ++ d ++ " */\n"
          | none => "") ++
        emitMethod {} (([] : List String).contains "p") "p" (sanitizeName "p") ++ "\n\n"
    ∧ (emitPropOne (schemaVisit 1) [] ("p", UVal.obj [("type", UVal.str "oneOf"), ("description", UVal.str "d")])).2 ≠ ""
    ∧ emitMethod {} true "p" (sanitizeName "p") =
        " " ++ sanitizeName "p" ++ "() const  \x7breturn " ++ configNamespace ++
          "(obj[\"" ++ "p" ++ "\"]);\x7d"
    ∧ emitMethod {} false "p" (sanitizeName "p") =
        "std::optional<> " ++ sanitizeName "p" ++ "() const  \x7breturn " ++
          configNamespace ++ "::make_optional<" ++ configNamespace ++ ", >(obj[\"" ++
          "p" ++ "\"]);\x7d"
    ∧ (emitProps (schemaVisit 1) [] (("p", UVal.obj [("type", UVal.str "oneOf"), ("description", UVal.str "d")]) :: [])).2 =
        (emitPropOne (schemaVisit 1) [] ("p", UVal.obj [("type", UVal.str "oneOf"), ("description", UVal.str "d")])).2 ++
        (emitProps (schemaVisit 1) [] []).2))
    ∧ (emitPropOne (schemaVisit 1) [] ("p", UVal.obj [("type", UVal.str "oneOf"), ("description", UVal.str "d")])).2 =
        "\n/** d */\n" ++ "std::optional<> p() const  \x7breturn ::config::detail::::make_optional<::config::detail::, >(obj[\"p\"]);\x7d" ++ "\n\n" :=
  ⟨⟨by decide,
    c10_unknown_type_emits_malformed_accessor 0 "x" "p"
      (UVal.obj [("type", UVal.str "oneOf"), ("description", UVal.str "d")]) [] []
      (by decide)⟩,
   rfl⟩

/-- C6 counterexample: in one enclosing type with the two distinct object
properties "a-b" and "a_b", both nested classes are generated with the SAME
name a_bClass (each appears in the enclosing class), and the type generated
under property "a-b" is not named "a-b"+"Class": the visitor receives the
sanitized accessor name, so the claimed P+"Class" naming and the uniqueness
within one enclosing type both fail. -/
theorem c6_counterexample :
    (emitPropOne (schemaVisit 2) [] ("a-b", UVal.obj [("type", UVal.str "object")])).1 =
        (emitPropOne (schemaVisit 2) [] ("a_b", UVal.obj [("type", UVal.str "object")])).1
    ∧ (emitPropOne (schemaVisit 2) [] ("a-b", UVal.obj [("type", UVal.str "object")])).1 =
        "class a_bClass\x7b::config::detail::UCLPtr obj; public:\na_bClass(const ucl_object_t *o) : obj(o) \x7b\x7d\n\x7d;\n"
    ∧ emit_class 3 (some (UVal.obj [("properties", UVal.obj
        [("a-b", UVal.obj [("type", UVal.str "object")]),
         ("a_b", UVal.obj [("type", UVal.str "object")])])])) "Config" =
        "class Config\x7b::config::detail::UCLPtr obj; public:\nConfig(const ucl_object_t *o) : obj(o) \x7b\x7d\nclass a_bClass\x7b::config::detail::UCLPtr obj; public:\na_bClass(const ucl_object_t *o) : obj(o) \x7b\x7d\n\x7d;\nclass a_bClass\x7b::config::detail::UCLPtr obj; public:\na_bClass(const ucl_object_t *o) : obj(o) \x7b\x7d\n\x7d;\nstd::optional<a_bClass> a_b() const  \x7breturn ::config::detail::::make_optional<a_bClass, a_bClass>(obj[\"a-b\"]);\x7d\n\nstd::optional<a_bClass> a_b() const  \x7breturn ::config::detail::::make_optional<a_bClass, a_bClass>(obj[\"a_b\"]);\x7d\n\n\x7d;\n"
    ∧ ("a_bClass" : String) ≠ "a-b" ++ "Class" :=
  ⟨rfl, rfl, rfl, by decide⟩

/-- C6 amended: a nested object schema under a property generates a type named
S+"Class" and a nested array's element type is synthesized under the name
S+"Item", where S is the SANITIZED property identifier (so two properties
whose sanitized names coincide generate identically named types - uniqueness
is not guaranteed); every nested type definition is rendered before the
enclosing type's accessors, which are rendered before the closing brace. -/
theorem c6_nested_naming_and_emission_order (fuel : Nat) (name1 name2 : String)
    (node1 node2 : Option UVal)
    (h1 : typeDiscriminator node1 = "object")
    (h2 : typeDiscriminator node2 = "array")
    (visitFn : String → Option UVal → VisitResult) (req : List String)
    (o : Option UVal) (nm k : String) (w : UVal) :
    (schemaVisit (fuel + 1) name1 node1).return_type = name1 ++ "Class"
    ∧ (schemaVisit (fuel + 1) name1 node1).types =
        emit_class fuel node1 (name1 ++ "Class")
    ∧ (schemaVisit (fuel + 1) name2 node2).types =
        (schemaVisit fuel (name2 ++ "Item") (lookupOpt node2 "items")).types
    ∧ (schemaVisit (fuel + 1) name2 node2).return_type =
        configNamespace ++ "::Range<" ++
          (schemaVisit fuel (name2 ++ "Item") (lookupOpt node2 "items")).return_type ++
          ", " ++
          (schemaVisit fuel (name2 ++ "Item") (lookupOpt node2 "items")).adaptor ++
          ", true>"
    ∧ (emitPropOne visitFn req (k, w)).1 = (visitFn (sanitizeName k) (some w)).types
    ∧ emit_class_core visitFn o nm =
        "class " ++ nm ++ "\x7b" ++ configNamespace ++ "UCLPtr obj; public:\n" ++
          nm ++ "(const ucl_object_t *o) : obj(o) \x7b\x7d\n" ++
          (emitProps visitFn (requiredNames o) (propsIter (lookupOpt o "properties"))).1 ++
          (emitProps visitFn (requiredNames o) (propsIter (lookupOpt o "properties"))).2 ++
          "\x7d;\n" := by
  refine ⟨?_, ?_, ?_, ?_, rfl, rfl⟩
  · simp only [schemaVisit]
    rw [if_pos h1]
  · simp only [schemaVisit]
    rw [if_pos h1]
    rfl
  · simp only [schemaVisit]
    rw [h2]
    rfl
  · simp only [schemaVisit]
    rw [h2]
    rfl

theorem c6_witness :
    (typeDiscriminator (some (UVal.obj [("type", UVal.str "object")])) = "object")
    ∧ (typeDiscriminator (some (UVal.obj [("type", UVal.str "array")])) = "array")
    ∧ ((schemaVisit 1 "A" (some (UVal.obj [("type", UVal.str "object")]))).return_type = "A" ++ "Class"
    ∧ (schemaVisit 1 "A" (some (UVal.obj [("type", UVal.str "object")]))).types =
        emit_class 0 (some (UVal.obj [("type", UVal.str "object")])) ("A" ++ "Class")
    ∧ (schemaVisit 1 "B" (some (UVal.obj [("type", UVal.str "array")]))).types =
        (schemaVisit 0 ("B" ++ "Item")
          (lookupOpt (some (UVal.obj [("type", UVal.str "array")])) "items")).types
    ∧ (schemaVisit 1 "B" (some (UVal.obj [("type", UVal.str "array")]))).return_type =
        configNamespace ++ "::Range<" ++
          (schemaVisit 0 ("B" ++ "Item")
            (lookupOpt (some (UVal.obj [("type", UVal.str "array")])) "items")).return_type ++
          ", " ++
          (schemaVisit 0 ("B" ++ "Item")
            (lookupOpt (some (UVal.obj [("type", UVal.str "array")])) "items")).adaptor ++
          ", true>"
    ∧ (emitPropOne (schemaVisit 1) [] ("a-b", UVal.null)).1 =
        (schemaVisit 1 (sanitizeName "a-b") (some UVal.null)).types
    ∧ emit_class_core (schemaVisit 1) none "C" =
        "class " ++ "C" ++ "\x7b" ++ configNamespace ++ "UCLPtr obj; public:\n" ++
          "C" ++ "(const ucl_object_t *o) : obj(o) \x7b\x7d\n" ++
          (emitProps (schemaVisit 1) (requiredNames none) (propsIter (lookupOpt none "properties"))).1 ++
          (emitProps (schemaVisit 1) (requiredNames none) (propsIter (lookupOpt none "properties"))).2 ++
          "\x7d;\n") :=
  ⟨rfl, rfl,
   c6_nested_naming_and_emission_order 0 "A" "B"
     (some (UVal.obj [("type", UVal.str "object")]))
     (some (UVal.obj [("type", UVal.str "array")])) rfl rfl
     (schemaVisit 1) [] none "C" "a-b" UVal.null⟩

theorem iterDrain_obj_none (n : Nat) (it : Option (List UVal)) :
    iterDrain n { iter := it, obj := none } = [] := by
  cases n <;> rfl

theorem iterDrain_live (l : List UVal) : ∀ (x : UVal) (n : Nat),
    l.length + 1 ≤ n →
    iterDrain n { iter := some l, obj := some x } = x :: l := by
  induction l with
  | nil =>
    intro x n hn
    match n, hn with
    | n + 1, _ =>
      simp only [iterDrain, iterStep]
      rw [iterDrain_obj_none]
  | cons y ys ih =>
    intro x n hn
    match n, hn with
    | n + 1, hn =>
      have hlen : ys.length + 1 ≤ n := by
        simp only [List.length_cons] at hn
        omega
      simp only [iterDrain, iterStep]
      rw [ih y n hlen]

/-- C7: iterating the generated lazy range (property-mode instantiation, as
emitted for array properties) over an actual sequence yields its elements in
document order, and over a non-container document value yields exactly that
value as a one-element sequence; the concrete sequences of the spec's examples
[1,2,3] and scalar 5 come out as claimed.  A restarted iteration begins anew
because begin() is a function of the stored range fields only. -/
theorem c7_range_iteration (xs : List UVal) (n : Nat) (hn : xs.length + 1 ≤ n)
    (v : UVal) (hv1 : ∀ ys, v ≠ UVal.arr ys) (hv2 : ∀ kvs, v ≠ UVal.obj kvs)
    (m : Nat) (hm : 1 ≤ m) :
    rangeToList true (some (UVal.arr xs)) n = xs
    ∧ rangeToList true (some v) m = [v]
    ∧ rangeToList true (some (UVal.arr [UVal.int 1, UVal.int 2, UVal.int 3])) 4 =
        [UVal.int 1, UVal.int 2, UVal.int 3]
    ∧ rangeToList true (some (UVal.int 5)) 2 = [UVal.int 5]
    ∧ rangeToList true (some (UVal.arr xs)) n =
        iterDrain n (iterNew true (some (UVal.arr xs))) := by
  refine ⟨?_, ?_, rfl, rfl, rfl⟩
  · rw [rangeToList, iterNew]
    simp only [Bool.true_eq_false, false_and, if_neg, ite_false]
    cases xs with
    | nil =>
      simp only [uclIterList, uclIterateBoth, iterStep]
      rw [iterDrain_obj_none]
    | cons x t =>
      simp only [uclIterList, uclIterateBoth, iterStep]
      apply iterDrain_live
      simp only [List.length_cons] at hn
      omega
  · have hscalar : uclIterateBoth v = [v] := by
      cases v with
      | arr ys => exact absurd rfl (hv1 ys)
      | obj kvs => exact absurd rfl (hv2 kvs)
      | _ => rfl
    rw [rangeToList, iterNew]
    simp only [Bool.true_eq_false, false_and, if_neg, ite_false]
    simp only [uclIterList, hscalar, iterStep]
    match m, hm with
    | m + 1, _ =>
      simp only [iterDrain, iterStep]
      rw [iterDrain_obj_none]

theorem c7_witness :
    (([UVal.int 7] : List UVal).length + 1 ≤ 2 ∧ (1 : Nat) ≤ 1)
    ∧ (rangeToList true (some (UVal.arr [UVal.int 7])) 2 = [UVal.int 7]
    ∧ rangeToList true (some (UVal.str "s")) 1 = [UVal.str "s"]
    ∧ rangeToList true (some (UVal.arr [UVal.int 1, UVal.int 2, UVal.int 3])) 4 =
        [UVal.int 1, UVal.int 2, UVal.int 3]
    ∧ rangeToList true (some (UVal.int 5)) 2 = [UVal.int 5]
    ∧ rangeToList true (some (UVal.arr [UVal.int 7])) 2 =
        iterDrain 2 (iterNew true (some (UVal.arr [UVal.int 7])))) :=
  ⟨⟨by decide, by decide⟩,
   c7_range_iteration [UVal.int 7] 2 (by decide) (UVal.str "s")
     (fun ys h => UVal.noConfusion h) (fun kvs h => UVal.noConfusion h) 1 (by decide)⟩

theorem make_config_cached_state (embedded : UVal)
    (validate : UVal → UVal → Option SchemaError) (st : FactoryState) (s : UVal)
    (h : st.cachedSchema = some s) (doc : UVal) :
    (make_config embedded validate st doc).1 = st := by
  rw [make_config, h]
  cases validate s doc <;> rfl

theorem runFactory_cached (embedded : UVal)
    (validate : UVal → UVal → Option SchemaError) (docs : List UVal) :
    ∀ (st : FactoryState) (s : UVal), st.cachedSchema = some s →
      (runFactory embedded validate st docs).1 = st := by
  induction docs with
  | nil => intro st s h; rfl
  | cons d ds ih =>
    intro st s h
    rw [runFactory]
    simp only
    rw [make_config_cached_state embedded validate st s h d]
    exact ih st s h

/-- C3: the emitted factory parses the embedded schema exactly once per
process (the cached validator is created by the first call and every later
call reuses it without reparsing), and every call returns exactly one of the
two outcomes: a Config built from the caller's document exactly when the
validator accepts it, and the validator's structured error exactly when it
rejects it. -/
theorem c3_factory_contract (embedded : UVal)
    (validate : UVal → UVal → Option SchemaError) (d : UVal) (ds : List UVal)
    (st : FactoryState) (doc : UVal) :
    ((runFactory embedded validate { cachedSchema := none, parseCount := 0 }
        (d :: ds)).1 = { cachedSchema := some embedded, parseCount := 1 })
    ∧ (∀ s, st.cachedSchema = some s →
        (make_config embedded validate st doc).1 = st)
    ∧ ((make_config embedded validate st doc).2 = Sum.inl { obj := doc } ↔
        validate (st.cachedSchema.getD embedded) doc = none)
    ∧ (∀ e, (make_config embedded validate st doc).2 = Sum.inr e ↔
        validate (st.cachedSchema.getD embedded) doc = some e)
    ∧ ((∃ c, (make_config embedded validate st doc).2 = Sum.inl c) ↔
        ¬ ∃ e, (make_config embedded validate st doc).2 = Sum.inr e) := by
  refine ⟨?_, fun s h => make_config_cached_state embedded validate st s h doc,
    ?_, ?_, ?_⟩
  · rw [runFactory]
    simp only
    have h1 : (make_config embedded validate
        { cachedSchema := none, parseCount := 0 } d).1 =
        { cachedSchema := some embedded, parseCount := 1 } := by
      rw [make_config]
      cases validate embedded d <;> rfl
    rw [h1]
    exact runFactory_cached embedded validate ds _ embedded rfl
  · cases hc : st.cachedSchema with
    | none =>
      rw [make_config, hc]
      cases hv : validate embedded doc <;>
        simp [hc, hv, Config.mk.injEq]
    | some s =>
      rw [make_config, hc]
      cases hv : validate s doc <;>
        simp [hc, hv, Config.mk.injEq]
  · intro e
    cases hc : st.cachedSchema with
    | none =>
      rw [make_config, hc]
      cases hv : validate embedded doc <;> simp [hc, hv]
    | some s =>
      rw [make_config, hc]
      cases hv : validate s doc <;> simp [hc, hv]
  · cases hc : st.cachedSchema with
    | none =>
      rw [make_config, hc]
      cases hv : validate embedded doc <;> simp [hv]
    | some s =>
      rw [make_config, hc]
      cases hv : validate s doc <;> simp [hv]

theorem c3_witness :
    ((runFactory UVal.null
        (fun _ dd => match dd with
          | UVal.int _ => none
          | _ => some { msg := "type mismatch", offending := dd })
        { cachedSchema := none, parseCount := 0 }
        (UVal.int 1 :: [UVal.str "no"])).1 =
      { cachedSchema := some UVal.null, parseCount := 1 })
    ∧ ({ cachedSchema := some UVal.null, parseCount := 1 : FactoryState }.cachedSchema =
        some UVal.null →
      (make_config UVal.null
        (fun _ dd => match dd with
          | UVal.int _ => none
          | _ => some { msg := "type mismatch", offending := dd })
        { cachedSchema := some UVal.null, parseCount := 1 } (UVal.int 1)).1 =
        { cachedSchema := some UVal.null, parseCount := 1 })
    ∧ ((make_config UVal.null
        (fun _ dd => match dd with
          | UVal.int _ => none
          | _ => some { msg := "type mismatch", offending := dd })
        { cachedSchema := some UVal.null, parseCount := 1 } (UVal.int 1)).2 =
        Sum.inl { obj := UVal.int 1 })
    ∧ ((make_config UVal.null
        (fun _ dd => match dd with
          | UVal.int _ => none
          | _ => some { msg := "type mismatch", offending := dd })
        { cachedSchema := some UVal.null, parseCount := 1 } (UVal.str "no")).2 =
        Sum.inr { msg := "type mismatch", offending := UVal.str "no" }) :=
  ⟨(c3_factory_contract UVal.null
      (fun _ dd => match dd with
        | UVal.int _ => none
        | _ => some { msg := "type mismatch", offending := dd })
      (UVal.int 1) [UVal.str "no"]
      { cachedSchema := some UVal.null, parseCount := 1 } (UVal.int 1)).1,
   fun _ => (c3_factory_contract UVal.null
      (fun _ dd => match dd with
        | UVal.int _ => none
        | _ => some { msg := "type mismatch", offending := dd })
      (UVal.int 1) [UVal.str "no"]
      { cachedSchema := some UVal.null, parseCount := 1 } (UVal.int 1)).2.1
      UVal.null rfl,
   ((c3_factory_contract UVal.null
      (fun _ dd => match dd with
        | UVal.int _ => none
        | _ => some { msg := "type mismatch", offending := dd })
      (UVal.int 1) [UVal.str "no"]
      { cachedSchema := some UVal.null, parseCount := 1 } (UVal.int 1)).2.2.1).mpr rfl,
   ((c3_factory_contract UVal.null
      (fun _ dd => match dd with
        | UVal.int _ => none
        | _ => some { msg := "type mismatch", offending := dd })
      (UVal.int 1) [UVal.str "no"]
      { cachedSchema := some UVal.null, parseCount := 1 } (UVal.str "no")).2.2.2.1
      { msg := "type mismatch", offending := UVal.str "no" }).mpr rfl⟩

end ConfigGen
